import Mathlib

/-!
# Verification of the stock-analysis Indicator & Signal Engine

Shallow embedding of `src/analyzer.py` (`StockAnalyzer`).  The engine receives
a pandas DataFrame of OHLCV bars, attaches technical-indicator columns
(`add_technical_indicators`), classifies trend / momentum / volatility from
the latest row, and aggregates a voting-based trading recommendation
(`generate_signals`, `get_summary`).

Modelling conventions:

* A float cell that may be NaN (a windowed indicator during its warm-up
  period, or a degenerate division) is `Cell := Option ℚ`; `none` models
  NaN/undefined.  Python/numpy comparisons involving NaN are `False`, which
  `cellGt`/`cellLt` reproduce (`none` compares false against everything).
* Finite float arithmetic is modelled by exact `ℚ` arithmetic.
* The two quantities whose *reported* value involves a square root
  (the Bollinger band offset `2·√(rolling population variance)` and the
  historical volatility `√(sample variance)·√252·100`) are carried in the
  state by their determining rational data (`bbVar`, `hvolVar`); the
  comparisons the code performs against the band edges are decided exactly
  on those rationals, and the real-valued volatility is recovered by an
  explicit `Real.sqrt` lift where a claim mentions it.
* The indicator columns are produced by the external `ta` library
  (`SMAIndicator`, `EMAIndicator`, `MACD`, `RSIIndicator`,
  `StochasticOscillator`, `BollingerBands`, `AverageTrueRange`,
  `OnBalanceVolumeIndicator`), which is not part of this repository's
  sources; those column computations are modelled from the spec's §4.2
  description of the Indicator Engine (windowed means with warm-up
  `undefined` values, exponential recurrences, Wilder smoothing, etc.).
  All analyzer/classification/voting logic is translated directly from
  `src/analyzer.py`.
* A raised Python exception is an `Except.error`; `iloc[-1]`/`iloc[-2]` on a
  too-short frame raises `IndexError`, modelled by `AErr.indexError`.
-/

deriving instance DecidableEq for Except

/-- A possibly-NaN float cell of the DataFrame. -/
abbrev Cell := Option ℚ

/-- One OHLCV bar (a row of the input DataFrame).  `open` is a Lean keyword,
so the open price field is called `openP`. -/
structure Bar where
  openP : ℚ
  high : ℚ
  low : ℚ
  close : ℚ
  volume : ℚ
deriving DecidableEq, Repr, Inhabited

/-- Python/numpy `a > b` on possibly-NaN floats: any comparison with NaN is
`False`. -/
def cellGt (a b : Cell) : Bool :=
  match a, b with
  | some x, some y => decide (y < x)
  | _, _ => false

/-- Python/numpy `a < b` on possibly-NaN floats. -/
def cellLt (a b : Cell) : Bool :=
  match a, b with
  | some x, some y => decide (x < y)
  | _, _ => false

/-- NaN-propagating subtraction of two cells. -/
def cellSub (a b : Cell) : Cell :=
  match a, b with
  | some x, some y => some (x - y)
  | _, _ => none

/-- The `Close` column of the frame. -/
def closes (data : List Bar) : List ℚ := data.map Bar.close

/-- The `High` column of the frame. -/
def highs (data : List Bar) : List ℚ := data.map Bar.high

/-- The `Low` column of the frame. -/
def lows (data : List Bar) : List ℚ := data.map Bar.low

/-- Minimum of a nonempty window (`0` on the empty list, which no defined
rolling position ever passes). -/
def listMin : List ℚ → ℚ
  | [] => 0
  | x :: xs => xs.foldl min x

/-- Maximum of a nonempty window. -/
def listMax : List ℚ → ℚ
  | [] => 0
  | x :: xs => xs.foldl max x

/-- pandas `rolling(n, min_periods=n).agg f`: position `i` holds
`f` of the trailing `n`-element window when a full window exists, and NaN
(`none`) during the warm-up. -/
def rollingQ (n : ℕ) (f : List ℚ → ℚ) (xs : List ℚ) : List Cell :=
  (List.range xs.length).map fun i =>
    if n ≤ i + 1 then some (f ((xs.drop (i + 1 - n)).take n)) else none

/-- All cells defined, as a list of rationals. -/
def allSome (l : List Cell) : Option (List ℚ) := l.mapM id

/-- pandas rolling aggregate over a column that itself contains NaNs: a
window containing any NaN (fewer than `min_periods = n` observations)
yields NaN. -/
def rollingCells (n : ℕ) (f : List ℚ → ℚ) (xs : List Cell) : List Cell :=
  (List.range xs.length).map fun i =>
    if n ≤ i + 1 then
      match allSome ((xs.drop (i + 1 - n)).take n) with
      | some w => some (f w)
      | none => none
    else none

/-- Modelled from the spec (§4.2, `SMA(n)`; `ta.SMAIndicator`): arithmetic
mean of the trailing `n` closes, undefined for the first `n - 1` positions. -/
def sma (n : ℕ) (xs : List ℚ) : List Cell :=
  rollingQ n (fun w => w.sum / (n : ℚ)) xs

/-- One step of pandas `ewm(..., adjust=False).mean()` with smoothing factor
`α`, skipping NaN inputs (`ignore_na=False` with only leading NaNs) and
masking the output until `minp` observations have been seen. -/
def ewmGo (α : ℚ) (minp : ℕ) : Option ℚ → ℕ → List Cell → List Cell
  | _, _, [] => []
  | y?, cnt, c :: rest =>
    match c with
    | none =>
        (match y? with
         | some y => if minp ≤ cnt then some y else none
         | none => none) :: ewmGo α minp y? cnt rest
    | some x =>
        let y := match y? with
          | none => x
          | some y => (1 - α) * y + α * x
        (if minp ≤ cnt + 1 then some y else none) :: ewmGo α minp (some y) (cnt + 1) rest

/-- Modelled from the spec (§4.2, exponential smoothing / Wilder recurrence):
pandas `ewm` mean with `adjust=False`, seeded at the first observation. -/
def ewmMean (α : ℚ) (minp : ℕ) (xs : List Cell) : List Cell :=
  ewmGo α minp none 0 xs

/-- Modelled from the spec (§4.2, `EMA(n)`; `ta.EMAIndicator`): smoothing
factor `α = 2/(n+1)`, undefined before the `n`-th position. -/
def emaCol (n : ℕ) (xs : List ℚ) : List Cell :=
  ewmMean (2 / ((n : ℚ) + 1)) n (xs.map some)

/-- Modelled from the spec (§4.2, `MACD = EMA(12) − EMA(26)`). -/
def macdCol (xs : List ℚ) : List Cell :=
  List.zipWith cellSub (emaCol 12 xs) (emaCol 26 xs)

/-- Modelled from the spec (§4.2, `MACD_Signal = EMA(9)` of the MACD series,
seeded once MACD values are defined); `span = 9` gives `α = 2/10`. -/
def macdSigCol (xs : List ℚ) : List Cell :=
  ewmMean (2 / 10) 9 (macdCol xs)

/-- `MACD_Diff = MACD − MACD_Signal` (`macd.macd_diff()`). -/
def macdDiffCol (xs : List ℚ) : List Cell :=
  List.zipWith cellSub (macdCol xs) (macdSigCol xs)

/-- pandas `Series.diff()`: day-over-day close delta, NaN at position 0. -/
def diffGo : ℚ → List ℚ → List Cell
  | _, [] => []
  | p, x :: rest => some (x - p) :: diffGo x rest

/-- pandas `Series.diff()` over a whole column. -/
def diffList : List ℚ → List Cell
  | [] => []
  | x :: rest => none :: diffGo x rest

/-- Gains column for RSI: `diff.where(diff > 0, 0.0)`; the NaN at position 0
compares false and becomes `0`. -/
def upList (xs : List ℚ) : List ℚ :=
  (diffList xs).map fun c =>
    match c with
    | some d => if 0 < d then d else 0
    | none => 0

/-- Losses column for RSI: `-diff.where(diff < 0, 0.0)`. -/
def downList (xs : List ℚ) : List ℚ :=
  (diffList xs).map fun c =>
    match c with
    | some d => if d < 0 then -d else 0
    | none => 0

/-- Modelled from the spec (§4.2, `RSI(14)`; `ta.RSIIndicator`): Wilder
smoothing (`α = 1/14`) of gains and losses, `RS = avg_gain/avg_loss`,
`RSI = 100 − 100/(1+RS)`, with `avg_loss = 0 ⇒ RSI = 100` and NaN
propagation during the 14-bar warm-up. -/
def rsiCol (xs : List ℚ) : List Cell :=
  let eu := ewmMean (1 / 14) 14 ((upList xs).map some)
  let ed := ewmMean (1 / 14) 14 ((downList xs).map some)
  List.zipWith
    (fun u d =>
      match d with
      | some dv =>
          if dv = 0 then some 100
          else
            match u with
            | some uv => some (100 - 100 / (1 + uv / dv))
            | none => none
      | none => none)
    eu ed

/-- Rolling population variance (`ddof = 0`) of the closes over a 20-bar
window: the square of the Bollinger `mstd`.  The band edges are
`SMA_20 ± 2·√bbVar`; the model carries the (rational) variance and decides
all band comparisons exactly on it. -/
def bbVarCol (n : ℕ) (xs : List ℚ) : List Cell :=
  rollingQ n (fun w => (w.map (fun x => (x - w.sum / (n : ℚ)) ^ 2)).sum / (n : ℚ)) xs

/-- Modelled from the spec (§4.2, `Stochastic(14, smooth=3)`):
`%K = 100·(close − min(low,14))/(max(high,14) − min(low,14))`, defined `50`
on a flat 14-bar range, NaN during warm-up. -/
def stochKCol (data : List Bar) : List Cell :=
  List.zipWith
    (fun c (p : Cell × Cell) =>
      match p.1, p.2 with
      | some mn, some mx =>
          if mx - mn = 0 then some 50 else some (100 * (c - mn) / (mx - mn))
      | _, _ => none)
    (closes data)
    ((rollingQ 14 listMin (lows data)).zip (rollingQ 14 listMax (highs data)))

/-- `%D = SMA(%K, 3)` (`stoch.stoch_signal()`). -/
def stochDCol (data : List Bar) : List Cell :=
  rollingCells 3 (fun w => w.sum / 3) (stochKCol data)

/-- True-range column: `max(high−low, |high−prev_close|, |low−prev_close|)`,
first bar `high − low` (spec §4.2, ATR). -/
def trGo : ℚ → List Bar → List ℚ
  | _, [] => []
  | pc, b :: rest =>
      max (b.high - b.low) (max |b.high - pc| |b.low - pc|) :: trGo b.close rest

/-- True-range column over the whole frame. -/
def trList : List Bar → List ℚ
  | [] => []
  | b :: rest => (b.high - b.low) :: trGo b.close rest

/-- Modelled from the spec (§4.2, `ATR(14)`): Wilder smoothing of the true
range with the same recurrence form as RSI's averages. -/
def atrCol (data : List Bar) : List Cell :=
  ewmMean (1 / 14) 14 ((trList data).map some)

/-- Running OBV accumulator after the first bar. -/
def obvGo : ℚ → ℚ → List Bar → List ℚ
  | _, _, [] => []
  | pc, acc, b :: rest =>
      let acc2 := acc + (if pc < b.close then b.volume
                         else if b.close < pc then -b.volume else 0)
      acc2 :: obvGo b.close acc2 rest

/-- Modelled from the spec (§4.2, OBV): cumulative ±volume by close
direction, first bar contributes 0. -/
def obvCol : List Bar → List Cell
  | [] => []
  | b :: rest => ((0 : ℚ) :: obvGo b.close 0 rest).map some

/-- pandas `Series.pct_change()`: `close[t]/close[t−1] − 1`, NaN at `t = 0`. -/
def pctGo : ℚ → List ℚ → List Cell
  | _, [] => []
  | p, x :: rest => some (x / p - 1) :: pctGo x rest

/-- `pct_change` over a whole column. -/
def pctChange : List ℚ → List Cell
  | [] => []
  | x :: rest => none :: pctGo x rest

/-- `Daily_Return = Close.pct_change() * 100`. -/
def dailyReturnCol (xs : List ℚ) : List Cell :=
  (pctChange xs).map (Option.map (· * 100))

/-- `Price_Change = Close.diff()`. -/
def priceChangeCol (xs : List ℚ) : List Cell := diffList xs

/-- The indicator columns that `add_technical_indicators` attaches to the
frame; each is aligned 1:1 with the bar list.  `BB_Upper`/`BB_Lower` are
`bbMiddle ± 2·√bbVar` (see the header note on square roots). -/
structure Indicators where
  sma20 : List Cell
  sma50 : List Cell
  sma200 : List Cell
  ema12 : List Cell
  ema26 : List Cell
  macd : List Cell
  macdSig : List Cell
  macdDiff : List Cell
  rsi : List Cell
  bbMiddle : List Cell
  bbVar : List Cell
  stochK : List Cell
  stochD : List Cell
  atr : List Cell
  obv : List Cell
  dailyReturn : List Cell
  priceChange : List Cell
deriving DecidableEq, Repr, Inhabited

/-- The column computations of `add_technical_indicators` (lines 26–89). -/
def computeIndicators (data : List Bar) : Indicators :=
  { sma20 := sma 20 (closes data)
    sma50 := sma 50 (closes data)
    sma200 := sma 200 (closes data)
    ema12 := emaCol 12 (closes data)
    ema26 := emaCol 26 (closes data)
    macd := macdCol (closes data)
    macdSig := macdSigCol (closes data)
    macdDiff := macdDiffCol (closes data)
    rsi := rsiCol (closes data)
    bbMiddle := sma 20 (closes data)
    bbVar := bbVarCol 20 (closes data)
    stochK := stochKCol data
    stochD := stochDCol data
    atr := atrCol data
    obv := obvCol data
    dailyReturn := dailyReturnCol (closes data)
    priceChange := priceChangeCol (closes data) }

/-- The last cell of a column (`NaN`/`none` when the column is empty; only
read behind a nonempty-frame check, mirroring `iloc[-1]`). -/
def lastCell (col : List Cell) : Cell := col.getLast?.join

/-- One augmented row, as produced by `self.data.iloc[-1]` after
`add_technical_indicators`. -/
structure Row where
  openP : ℚ
  high : ℚ
  low : ℚ
  close : ℚ
  volume : ℚ
  sma20 : Cell
  sma50 : Cell
  sma200 : Cell
  ema12 : Cell
  ema26 : Cell
  macd : Cell
  macdSig : Cell
  macdDiff : Cell
  rsi : Cell
  bbMiddle : Cell
  bbVar : Cell
  stochK : Cell
  stochD : Cell
  atr : Cell
  obv : Cell
  dailyReturn : Cell
  priceChange : Cell
deriving DecidableEq, Repr, Inhabited

/-- `self.data.iloc[-1]` on the augmented frame: `none` when the frame is
empty (pandas raises `IndexError` there). -/
def latestRow (data : List Bar) (ind : Indicators) : Option Row :=
  match data.getLast? with
  | none => none
  | some b =>
      some
        { openP := b.openP, high := b.high, low := b.low, close := b.close
          volume := b.volume
          sma20 := lastCell ind.sma20, sma50 := lastCell ind.sma50
          sma200 := lastCell ind.sma200
          ema12 := lastCell ind.ema12, ema26 := lastCell ind.ema26
          macd := lastCell ind.macd, macdSig := lastCell ind.macdSig
          macdDiff := lastCell ind.macdDiff, rsi := lastCell ind.rsi
          bbMiddle := lastCell ind.bbMiddle, bbVar := lastCell ind.bbVar
          stochK := lastCell ind.stochK, stochD := lastCell ind.stochD
          atr := lastCell ind.atr, obv := lastCell ind.obv
          dailyReturn := lastCell ind.dailyReturn
          priceChange := lastCell ind.priceChange }

/-- The exceptions the engine can raise.  Only `indexError` (pandas
`IndexError` from `iloc[-1]`/`iloc[-2]` on a too-short frame) occurs in the
code. -/
inductive AErr where
  /-- pandas `IndexError`: positional indexer out-of-bounds. -/
  | indexError
  /-- Modelled from the spec (§4.1, §7): the spec's `InsufficientDataError`
  for an empty input series.  No definition or raise site for such an error
  exists anywhere in the repository's code; the constructor is present only
  so that the spec's claimed failure mode is expressible. -/
  | insufficientData
deriving DecidableEq, Repr, Inhabited

/-- The dictionary returned by `analyze_trend` (lines 104–126). -/
structure TrendInfo where
  currentPrice : ℚ
  sma20 : Cell
  sma50 : Cell
  sma200 : Cell
  shortTermTrend : String
  longTermTrend : String
deriving DecidableEq, Repr, Inhabited

/-- The dictionary returned by `analyze_momentum` (lines 140–170).  The
`'macd_signal'` key is first set to the latest `MACD_Signal` number and then
overwritten by the classification string at lines 157–160, so only the label
survives in the returned dict (field `macdLabel`). -/
structure MomentumInfo where
  rsi : Cell
  macd : Cell
  stochK : Cell
  stochD : Cell
  rsiSignal : String
  macdLabel : String
  stochSignal : String
deriving DecidableEq, Repr, Inhabited

/-- The dictionary returned by `analyze_volatility` (lines 188–205).
`bb_upper`/`bb_lower` are `bbMiddle ± 2·√bbVar` and
`historical_volatility = √hvolVar·√252·100`; the determining rational data
are stored (see header). -/
structure VolatilityInfo where
  currentPrice : ℚ
  bbMiddle : Cell
  bbVar : Cell
  atr : Cell
  hvolVar : Cell
  bbPosition : String
deriving DecidableEq, Repr, Inhabited

/-- The dictionary returned by `generate_signals` (lines 218–254). -/
structure Signals where
  trend : String
  momentum : String
  macd : String
  volatility : String
  recommendation : String
  confidence : String
deriving DecidableEq, Repr, Inhabited

/-- The dictionary returned by `get_summary` (lines 265–271). -/
structure Summary where
  trend : TrendInfo
  momentum : MomentumInfo
  volatility : VolatilityInfo
  signals : Signals
  latestData : Row
deriving DecidableEq, Repr, Inhabited

/-- The analyzer object: `self.data` (base bars plus, once computed, the
indicator columns — the base OHLCV columns are never altered) and
`self.signals`. -/
structure AnalyzerState where
  data : List Bar
  indicators : Option Indicators
  signals : Option Signals
deriving DecidableEq, Repr, Inhabited

/-- `StockAnalyzer.__init__`: `self.data = data.copy()` (the analyzer owns an
independent copy of the caller's frame), `self.signals = {}`. -/
def initState (s : List Bar) : AnalyzerState :=
  { data := s, indicators := none, signals := none }

/-- The indicator columns the analyses read: the stored ones if present
(`'SMA_20' in self.data.columns`), else freshly computed. -/
def indicatorsOf (st : AnalyzerState) : Indicators :=
  st.indicators.getD (computeIndicators st.data)

/-- The state after the `if 'SMA_20' not in self.data.columns:
self.add_technical_indicators()` guard at the top of each analysis. -/
def withIndicators (st : AnalyzerState) : AnalyzerState :=
  { st with indicators := some (indicatorsOf st) }

/-- `add_technical_indicators` (lines 26–89): recompute every indicator
column from the (unchanged) base OHLCV columns and store them on `self`. -/
def addIndicators (st : AnalyzerState) : AnalyzerState :=
  { st with indicators := some (computeIndicators st.data) }

/-- The classification core of `analyze_trend` (lines 101–126): reads
`iloc[-1]` and `iloc[-2]` (the latter raises `IndexError` when the frame has
fewer than 2 rows; its value is never used), then classifies by chained
strict comparisons, NaN comparing false. -/
def trendOf (data : List Bar) (ind : Indicators) : Except AErr TrendInfo :=
  match latestRow data ind with
  | none => .error .indexError
  | some latest =>
      if data.length < 2 then .error .indexError
      else
        .ok
          { currentPrice := latest.close
            sma20 := latest.sma20, sma50 := latest.sma50, sma200 := latest.sma200
            shortTermTrend :=
              if cellGt (some latest.close) latest.sma20 && cellGt latest.sma20 latest.sma50 then
                "Восходящий"
              else if cellLt (some latest.close) latest.sma20 && cellLt latest.sma20 latest.sma50 then
                "Нисходящий"
              else "Боковой"
            longTermTrend :=
              if cellGt latest.sma50 latest.sma200 then "Восходящий (Golden Cross)"
              else if cellLt latest.sma50 latest.sma200 then "Нисходящий (Death Cross)"
              else "Нейтральный" }

/-- The classification core of `analyze_momentum` (lines 138–170). -/
def momentumOf (data : List Bar) (ind : Indicators) : Except AErr MomentumInfo :=
  match latestRow data ind with
  | none => .error .indexError
  | some latest =>
      .ok
        { rsi := latest.rsi, macd := latest.macd
          stochK := latest.stochK, stochD := latest.stochD
          rsiSignal :=
            if cellGt latest.rsi (some 70) then "Перекупленность"
            else if cellLt latest.rsi (some 30) then "Перепроданность"
            else "Нейтрально"
          macdLabel :=
            if cellGt latest.macd latest.macdSig then "Бычий" else "Медвежий"
          stochSignal :=
            if cellGt latest.stochK (some 80) then "Перекупленность"
            else if cellLt latest.stochK (some 20) then "Перепроданность"
            else "Нейтрально" }

/-- Strip the NaNs: pandas `Series.dropna()`. -/
def dropNone (l : List Cell) : List ℚ := l.filterMap id

/-- pandas `Series.std()` (sample, `ddof = 1`) squared — the sample variance
`Σ(x − x̄)²/(n−1)` of a column, NaN when fewer than two observations. -/
def sampleVarQ (xs : List ℚ) : Option ℚ :=
  if 2 ≤ xs.length then
    some (((xs.map fun x => (x - xs.sum / (xs.length : ℚ)) ^ 2).sum) / ((xs.length : ℚ) - 1))
  else none

/-- `close > BB_Upper`, i.e. `close > middle + 2·√var`, decided exactly on
the rational variance: for `var ≥ 0` this holds iff `close − middle > 0` and
`(close − middle)² > 4·var`.  NaN cells compare false. -/
def aboveUpperBand (c : ℚ) (mid v : Cell) : Bool :=
  match mid, v with
  | some m, some w => decide (0 < c - m) && decide (4 * w < (c - m) ^ 2)
  | _, _ => false

/-- `close < BB_Lower`, i.e. `close < middle − 2·√var`, decided exactly. -/
def belowLowerBand (c : ℚ) (mid v : Cell) : Bool :=
  match mid, v with
  | some m, some w => decide (c - m < 0) && decide (4 * w < (c - m) ^ 2)
  | _, _ => false

/-- The core of `analyze_volatility` (lines 182–205): historical volatility
from `Close.pct_change().dropna().std()` (stored as its square `hvolVar`; the
reported float is `√hvolVar·√252·100`), plus the Bollinger position of the
latest close. -/
def volatilityOf (data : List Bar) (ind : Indicators) : Except AErr VolatilityInfo :=
  match latestRow data ind with
  | none => .error .indexError
  | some latest =>
      .ok
        { currentPrice := latest.close
          bbMiddle := latest.bbMiddle, bbVar := latest.bbVar, atr := latest.atr
          hvolVar := sampleVarQ (dropNone (pctChange (closes data)))
          bbPosition :=
            if aboveUpperBand latest.close latest.bbMiddle latest.bbVar then
              "Выше верхней полосы (перекупленность)"
            else if belowLowerBand latest.close latest.bbMiddle latest.bbVar then
              "Ниже нижней полосы (перепроданность)"
            else "В пределах полос" }

/-- `analyze_trend` with its state effect: the indicator-columns guard runs
first (mutating `self.data`), then the classification may raise. -/
def analyzeTrend (st : AnalyzerState) : Except AErr TrendInfo × AnalyzerState :=
  (trendOf st.data (indicatorsOf st), withIndicators st)

/-- `analyze_momentum` with its state effect. -/
def analyzeMomentum (st : AnalyzerState) : Except AErr MomentumInfo × AnalyzerState :=
  (momentumOf st.data (indicatorsOf st), withIndicators st)

/-- `analyze_volatility` with its state effect. -/
def analyzeVolatility (st : AnalyzerState) : Except AErr VolatilityInfo × AnalyzerState :=
  (volatilityOf st.data (indicatorsOf st), withIndicators st)

/-- The vote tally after the short-term-trend and RSI blocks of
`generate_signals` (lines 226–237): `(buy_signals, sell_signals)`. -/
def trendRsiVotes (tl rl : String) : ℕ × ℕ :=
  let p1 : ℕ × ℕ :=
    if tl = "Восходящий" then (1, 0)
    else if tl = "Нисходящий" then (0, 1)
    else (0, 0)
  if rl = "Перепроданность" then (p1.1 + 1, p1.2)
  else if rl = "Перекупленность" then (p1.1, p1.2 + 1)
  else p1

/-- The final vote tally after the MACD block (lines 239–242): a Бычий
(bullish) MACD adds a buy vote, anything else adds a sell vote. -/
def voteCounts (tl rl ml : String) : ℕ × ℕ :=
  let p := trendRsiVotes tl rl
  if ml = "Бычий" then (p.1 + 1, p.2) else (p.1, p.2 + 1)

/-- Buy votes recomputed from the labels carried in the returned signals
dict (they are the same labels the votes were counted from). -/
def buyVotes (r : Signals) : ℕ := (voteCounts r.trend r.momentum r.macd).1

/-- Sell votes recomputed from the labels in the returned signals dict. -/
def sellVotes (r : Signals) : ℕ := (voteCounts r.trend r.momentum r.macd).2

/-- The signals dict built at lines 218–251: the per-category labels, the
vote-based recommendation (`buy > sell ⇒ ПОКУПАТЬ`, `sell > buy ⇒
ПРОДАВАТЬ`, else `ДЕРЖАТЬ`) and `confidence = f"{max(buy, sell)}/3"`. -/
def mkSignals (t : TrendInfo) (m : MomentumInfo) (v : VolatilityInfo) : Signals :=
  let bs := voteCounts t.shortTermTrend m.rsiSignal m.macdLabel
  { trend := t.shortTermTrend
    momentum := m.rsiSignal
    macd := m.macdLabel
    volatility := v.bbPosition
    recommendation :=
      if bs.2 < bs.1 then "ПОКУПАТЬ"
      else if bs.1 < bs.2 then "ПРОДАВАТЬ"
      else "ДЕРЖАТЬ"
    confidence := toString (max bs.1 bs.2) ++ "/3" }

/-- `generate_signals` (lines 207–254): runs the three analyses in order
(each may raise, leaving the partially-mutated state), tallies the votes and
stores the dict in `self.signals`. -/
def generateSignals (st : AnalyzerState) : Except AErr Signals × AnalyzerState :=
  let (tr, st1) := analyzeTrend st
  match tr with
  | .error e => (.error e, st1)
  | .ok t =>
      let (mo, st2) := analyzeMomentum st1
      match mo with
      | .error e => (.error e, st2)
      | .ok m =>
          let (vo, st3) := analyzeVolatility st2
          match vo with
          | .error e => (.error e, st3)
          | .ok v =>
              let sg := mkSignals t m v
              (.ok sg, { st3 with signals := some sg })

/-- `get_summary` (lines 256–271): recompute the indicators unconditionally,
then assemble the dict in evaluation order — `analyze_trend()`,
`analyze_momentum()`, `analyze_volatility()`, `generate_signals()` (which
re-runs the three analyses on the already-augmented frame) and
`self.data.iloc[-1].to_dict()`. -/
def getSummary (st : AnalyzerState) : Except AErr Summary × AnalyzerState :=
  let st1 := addIndicators st
  let (tr, st2) := analyzeTrend st1
  match tr with
  | .error e => (.error e, st2)
  | .ok t =>
      let (mo, st3) := analyzeMomentum st2
      match mo with
      | .error e => (.error e, st3)
      | .ok m =>
          let (vo, st4) := analyzeVolatility st3
          match vo with
          | .error e => (.error e, st4)
          | .ok v =>
              let (sg, st5) := generateSignals st4
              match sg with
              | .error e => (.error e, st5)
              | .ok g =>
                  match latestRow st5.data (indicatorsOf st5) with
                  | none => (.error .indexError, st5)
                  | some row =>
                      (.ok { trend := t, momentum := m, volatility := v
                             signals := g, latestData := row }, st5)

/-! ## Derived value-level characterizations

`generate_signals` and `get_summary` thread the mutable `self` through their
calls; the following two pure functions of the base bars are proven (below)
to coincide with the value components of those runs.  They are proof
devices, not re-translations. -/

/-- The value returned by `generate_signals` as a function of the frame and
its indicator columns. -/
def signalsValOf (d : List Bar) (ind : Indicators) : Except AErr Signals :=
  match trendOf d ind with
  | .error e => .error e
  | .ok t =>
    match momentumOf d ind with
    | .error e => .error e
    | .ok m =>
      match volatilityOf d ind with
      | .error e => .error e
      | .ok v => .ok (mkSignals t m v)

/-- The value returned by `get_summary` as a function of the base bars. -/
def summaryOf (d : List Bar) : Except AErr Summary :=
  match trendOf d (computeIndicators d) with
  | .error e => .error e
  | .ok t =>
    match momentumOf d (computeIndicators d) with
    | .error e => .error e
    | .ok m =>
      match volatilityOf d (computeIndicators d) with
      | .error e => .error e
      | .ok v =>
        match signalsValOf d (computeIndicators d) with
        | .error e => .error e
        | .ok g =>
          match latestRow d (computeIndicators d) with
          | none => .error AErr.indexError
          | some row => .ok ⟨t, m, v, g, row⟩

/-! ## The caller's frame and the engine's operations (frame property)

The caller owns the input series; `StockAnalyzer(data)` stores a `copy` of
it and every subsequent method only reads/writes the analyzer's own state. -/

/-- The world visible to the caller: their series and (after construction)
the analyzer object. -/
structure World where
  callerSeries : List Bar
  analyzer : Option AnalyzerState

/-- One public operation of the engine. -/
inductive EngineOp where
  | construct
  | addInd
  | trend
  | momentum
  | volatility
  | signals
  | summary

/-- The state effect of one method call on an existing analyzer (results are
discarded; a raising call still leaves its partial mutation). -/
def applyOp (st : AnalyzerState) : EngineOp → AnalyzerState
  | .construct => st
  | .addInd => addIndicators st
  | .trend => (analyzeTrend st).2
  | .momentum => (analyzeMomentum st).2
  | .volatility => (analyzeVolatility st).2
  | .signals => (generateSignals st).2
  | .summary => (getSummary st).2

/-- One step of the caller's session: constructing the analyzer copies the
caller's series (`data.copy()`); every other operation acts on the
analyzer's own state. -/
def stepOp (w : World) (op : EngineOp) : World :=
  match op with
  | .construct => { w with analyzer := some (initState w.callerSeries) }
  | _ =>
      match w.analyzer with
      | none => w
      | some st => { w with analyzer := some (applyOp st op) }

/-- An arbitrary sequence of engine operations. -/
def runOps (w : World) (ops : List EngineOp) : World := ops.foldl stepOp w

/-! ## Historical volatility (code formula vs. spec formula) -/

/-- Day-over-day fractional returns, following the spec's words: the daily
return series is `(close[t] − close[t−1])/close[t−1]`, one entry per
consecutive pair. -/
def retGo : ℚ → List ℚ → List ℚ
  | _, [] => []
  | p, x :: rest => (x - p) / p :: retGo x rest

/-- Spec-side daily-return series of a close column. -/
def specDailyReturns : List ℚ → List ℚ
  | [] => []
  | x :: rest => retGo x rest

/-- Spec-side sample variance, written in the closed form
`(n·Σx² − (Σx)²)/(n·(n−1))`, undefined below two observations. -/
def specSampleVar (xs : List ℚ) : Option ℚ :=
  if 2 ≤ xs.length then
    some (((xs.length : ℚ) * (xs.map fun x => x ^ 2).sum - xs.sum ^ 2) /
      ((xs.length : ℚ) * ((xs.length : ℚ) - 1)))
  else none

/-- The historical volatility the code reports (line 186):
`returns.std() * np.sqrt(252) * 100` with `returns =
Close.pct_change().dropna()` and `std = √(sample variance)`; `noncomputable`
only because of `Real.sqrt`. -/
noncomputable def historicalVolatility (data : List Bar) : Option ℝ :=
  (sampleVarQ (dropNone (pctChange (closes data)))).map
    (fun q => Real.sqrt (q : ℝ) * Real.sqrt 252 * 100)

/-- The spec's historical volatility: `stddev(daily_return_series, sample) ·
√252`, expressed as a percentage. -/
noncomputable def specHistoricalVolatility (data : List Bar) : Option ℝ :=
  (specSampleVar (specDailyReturns (closes data))).map
    (fun q => Real.sqrt (q : ℝ) * Real.sqrt 252 * 100)

/-! ## Concrete inputs used by the witness theorems -/

/-- A concrete 2-bar series on which `generate_signals` succeeds. -/
def sW1 : List Bar := [⟨10, 11, 9, 10, 100⟩, ⟨10, 12, 19/2, 11, 150⟩]

/-- The signals dict produced for `sW1`. -/
def rW1 : Signals :=
  match (generateSignals (initState sW1)).1 with
  | .ok r => r
  | .error _ => default

/-- A concrete 3-bar series on which `generate_signals` succeeds. -/
def sW5 : List Bar :=
  [⟨20, 21, 19, 20, 500⟩, ⟨20, 22, 39/2, 21, 600⟩, ⟨21, 23, 20, 22, 700⟩]

/-- The signals dict produced for `sW5`. -/
def rW5 : Signals :=
  match (generateSignals (initState sW5)).1 with
  | .ok r => r
  | .error _ => default

/-- A concrete 2-bar series with a falling close. -/
def sW9 : List Bar := [⟨30, 31, 29, 30, 800⟩, ⟨30, 31, 28, 29, 900⟩]

/-- The signals dict produced for `sW9`. -/
def rW9 : Signals :=
  match (generateSignals (initState sW9)).1 with
  | .ok r => r
  | .error _ => default

/-- A concrete 2-bar series used for the MACD-rule witness. -/
def sW4 : List Bar := [⟨40, 41, 39, 40, 10⟩, ⟨40, 42, 39, 41, 20⟩]

/-- Its indicator columns. -/
def indW4 : Indicators := computeIndicators sW4

/-- Its momentum dict. -/
def mW4 : MomentumInfo :=
  match momentumOf sW4 indW4 with
  | .ok m => m
  | .error _ => default

/-- A 10-bar series (shorter than every long window, so `SMA_200` is NaN at
the latest bar): the spec's §8 Undetermined scenario. -/
def sT10 : List Bar :=
  [⟨100, 101, 99, 100, 1000⟩, ⟨101, 102, 100, 101, 1000⟩,
   ⟨102, 103, 101, 102, 1000⟩, ⟨103, 104, 102, 103, 1000⟩,
   ⟨104, 105, 103, 104, 1000⟩, ⟨105, 106, 104, 105, 1000⟩,
   ⟨106, 107, 105, 106, 1000⟩, ⟨107, 108, 106, 107, 1000⟩,
   ⟨108, 109, 107, 108, 1000⟩, ⟨109, 110, 108, 109, 1000⟩]

/-- The trend dict produced for `sT10`. -/
def tT10 : TrendInfo :=
  match (analyzeTrend (initState sT10)).1 with
  | .ok t => t
  | .error _ => default

/-- A 1-bar series (below the `iloc[-2]` requirement). -/
def sW10 : List Bar := [⟨50, 51, 49, 50, 10⟩]

/-- A 3-bar series with positive closes for the volatility witness. -/
def sW8 : List Bar := [⟨1, 1, 1, 1, 1⟩, ⟨2, 2, 2, 2, 2⟩, ⟨3, 3, 3, 3, 3⟩]
/-! ## Basic lemmas about the analyzer state and the classifiers -/

lemma withIndicators_data (st : AnalyzerState) : (withIndicators st).data = st.data := rfl

lemma indicatorsOf_withIndicators (st : AnalyzerState) :
    indicatorsOf (withIndicators st) = indicatorsOf st := rfl

lemma trendOf_ok_shortTerm {d : List Bar} {ind : Indicators} {t : TrendInfo}
    (h : trendOf d ind = Except.ok t) :
    t.shortTermTrend = "Восходящий" ∨ t.shortTermTrend = "Нисходящий" ∨
      t.shortTermTrend = "Боковой" := by
  unfold trendOf at h
  rcases hl : latestRow d ind with _ | row <;> rw [hl] at h
  · exact Except.noConfusion h
  · dsimp only at h
    split at h
    · exact Except.noConfusion h
    · injection h with h
      subst h
      dsimp only
      split_ifs <;> simp

lemma momentumOf_ok_rsi {d : List Bar} {ind : Indicators} {m : MomentumInfo}
    (h : momentumOf d ind = Except.ok m) :
    m.rsiSignal = "Перекупленность" ∨ m.rsiSignal = "Перепроданность" ∨
      m.rsiSignal = "Нейтрально" := by
  unfold momentumOf at h
  rcases hl : latestRow d ind with _ | row <;> rw [hl] at h
  · exact Except.noConfusion h
  · injection h with h
    subst h
    dsimp only
    split_ifs <;> simp

lemma momentumOf_ok_macd {d : List Bar} {ind : Indicators} {m : MomentumInfo}
    (h : momentumOf d ind = Except.ok m) :
    m.macdLabel = "Бычий" ∨ m.macdLabel = "Медвежий" := by
  unfold momentumOf at h
  rcases hl : latestRow d ind with _ | row <;> rw [hl] at h
  · exact Except.noConfusion h
  · injection h with h
    subst h
    dsimp only
    split_ifs <;> simp

/-- Destructuring a successful `generate_signals` run into the three
classification dicts it consumed and the dict it built from them. -/
lemma generateSignals_ok_parts {st : AnalyzerState} {r : Signals}
    (h : (generateSignals st).1 = Except.ok r) :
    ∃ t m v, trendOf st.data (indicatorsOf st) = Except.ok t ∧
      momentumOf st.data (indicatorsOf st) = Except.ok m ∧
      volatilityOf st.data (indicatorsOf st) = Except.ok v ∧
      r = mkSignals t m v := by
  have e1 : generateSignals st =
      (match trendOf st.data (indicatorsOf st) with
       | .error e => (Except.error e, withIndicators st)
       | .ok t =>
         match momentumOf st.data (indicatorsOf st) with
         | .error e => (Except.error e, withIndicators st)
         | .ok m =>
           match volatilityOf st.data (indicatorsOf st) with
           | .error e => (Except.error e, withIndicators st)
           | .ok v => (Except.ok (mkSignals t m v),
               { withIndicators st with signals := some (mkSignals t m v) })) := rfl
  rw [e1] at h
  rcases h1 : trendOf st.data (indicatorsOf st) with e | t <;> rw [h1] at h
  · exact Except.noConfusion h
  rcases h2 : momentumOf st.data (indicatorsOf st) with e | m <;> rw [h2] at h
  · exact Except.noConfusion h
  rcases h3 : volatilityOf st.data (indicatorsOf st) with e | v <;> rw [h3] at h
  · exact Except.noConfusion h
  injection h with h
  subst h
  exact ⟨t, m, v, rfl, rfl, rfl, rfl⟩

/-- Exhaustive case analysis of the vote tally and the derived
recommendation/confidence over the 18 possible label combinations. -/
lemma mkSignals_cases (t : TrendInfo) (m : MomentumInfo) (v : VolatilityInfo)
    (h1 : t.shortTermTrend = "Восходящий" ∨ t.shortTermTrend = "Нисходящий" ∨
      t.shortTermTrend = "Боковой")
    (h2 : m.rsiSignal = "Перекупленность" ∨ m.rsiSignal = "Перепроданность" ∨
      m.rsiSignal = "Нейтрально")
    (h3 : m.macdLabel = "Бычий" ∨ m.macdLabel = "Медвежий") :
    (((mkSignals t m v).recommendation = "ПОКУПАТЬ") ↔
        sellVotes (mkSignals t m v) < buyVotes (mkSignals t m v)) ∧
    (((mkSignals t m v).recommendation = "ПРОДАВАТЬ") ↔
        buyVotes (mkSignals t m v) < sellVotes (mkSignals t m v)) ∧
    (((mkSignals t m v).recommendation = "ДЕРЖАТЬ") ↔
        buyVotes (mkSignals t m v) = sellVotes (mkSignals t m v)) ∧
    ((mkSignals t m v).confidence =
        toString (max (buyVotes (mkSignals t m v)) (sellVotes (mkSignals t m v))) ++ "/3") ∧
    ((mkSignals t m v).recommendation = "ПОКУПАТЬ" ∨
      (mkSignals t m v).recommendation = "ПРОДАВАТЬ" ∨
      (mkSignals t m v).recommendation = "ДЕРЖАТЬ") ∧
    ((mkSignals t m v).confidence = "0/3" ∨ (mkSignals t m v).confidence = "1/3" ∨
      (mkSignals t m v).confidence = "2/3" ∨ (mkSignals t m v).confidence = "3/3") ∧
    ((mkSignals t m v).confidence ≠ "0/3") ∧
    (1 ≤ buyVotes (mkSignals t m v) + sellVotes (mkSignals t m v)) ∧
    (((mkSignals t m v).recommendation = "ДЕРЖАТЬ") ↔
        (buyVotes (mkSignals t m v) = 1 ∧ sellVotes (mkSignals t m v) = 1)) := by
  rcases h1 with h1 | h1 | h1 <;> rcases h2 with h2 | h2 | h2 <;> rcases h3 with h3 | h3 <;>
    simp only [mkSignals, buyVotes, sellVotes, h1, h2, h3] <;> decide

/-! ## C1 -/

/-- C1: for every run of `generate_signals` that returns a dict `r`, the
recommendation is ПОКУПАТЬ (BUY) exactly when `buy_signals > sell_signals`,
ПРОДАВАТЬ (SELL) exactly when `sell_signals > buy_signals`, and ДЕРЖАТЬ
(HOLD) otherwise (i.e. on equal counts, which subsumes the 0–0 case), where
the counts are the three-rule tally `voteCounts` over the short-term-trend,
RSI and MACD labels; the confidence string is `max(buy, sell)` followed by
`"/3"`. -/
theorem generate_signals_vote_rule (st : AnalyzerState) (r : Signals)
    (h : (generateSignals st).1 = Except.ok r) :
    ((r.recommendation = "ПОКУПАТЬ") ↔ sellVotes r < buyVotes r) ∧
    ((r.recommendation = "ПРОДАВАТЬ") ↔ buyVotes r < sellVotes r) ∧
    ((r.recommendation = "ДЕРЖАТЬ") ↔ buyVotes r = sellVotes r) ∧
    r.confidence = toString (max (buyVotes r) (sellVotes r)) ++ "/3" := by
  obtain ⟨t, m, v, h1, h2, h3, rfl⟩ := generateSignals_ok_parts h
  obtain ⟨a, b, c, d, -, -, -, -, -⟩ :=
    mkSignals_cases t m v (trendOf_ok_shortTerm h1) (momentumOf_ok_rsi h2)
      (momentumOf_ok_macd h2)
  exact ⟨a, b, c, d⟩

theorem generate_signals_vote_rule_witness :
    ((rW1.recommendation = "ПОКУПАТЬ") ↔ sellVotes rW1 < buyVotes rW1) ∧
    ((rW1.recommendation = "ПРОДАВАТЬ") ↔ buyVotes rW1 < sellVotes rW1) ∧
    ((rW1.recommendation = "ДЕРЖАТЬ") ↔ buyVotes rW1 = sellVotes rW1) ∧
    rW1.confidence = toString (max (buyVotes rW1) (sellVotes rW1)) ++ "/3" :=
  generate_signals_vote_rule (initState sW1) rW1 (by decide)

/-! ## C5 -/

/-- C5: every dict `generate_signals` returns has
`recommendation ∈ {ПОКУПАТЬ, ПРОДАВАТЬ, ДЕРЖАТЬ}` (BUY/SELL/HOLD) and
`confidence ∈ {"0/3", "1/3", "2/3", "3/3"}`. -/
theorem generate_signals_range (st : AnalyzerState) (r : Signals)
    (h : (generateSignals st).1 = Except.ok r) :
    (r.recommendation = "ПОКУПАТЬ" ∨ r.recommendation = "ПРОДАВАТЬ" ∨
      r.recommendation = "ДЕРЖАТЬ") ∧
    (r.confidence = "0/3" ∨ r.confidence = "1/3" ∨ r.confidence = "2/3" ∨
      r.confidence = "3/3") := by
  obtain ⟨t, m, v, h1, h2, h3, rfl⟩ := generateSignals_ok_parts h
  obtain ⟨-, -, -, -, e, f, -, -, -⟩ :=
    mkSignals_cases t m v (trendOf_ok_shortTerm h1) (momentumOf_ok_rsi h2)
      (momentumOf_ok_macd h2)
  exact ⟨e, f⟩

theorem generate_signals_range_witness :
    (rW5.recommendation = "ПОКУПАТЬ" ∨ rW5.recommendation = "ПРОДАВАТЬ" ∨
      rW5.recommendation = "ДЕРЖАТЬ") ∧
    (rW5.confidence = "0/3" ∨ rW5.confidence = "1/3" ∨ rW5.confidence = "2/3" ∨
      rW5.confidence = "3/3") :=
  generate_signals_range (initState sW5) rW5 (by decide)

/-! ## C9 -/

/-- C9: the MACD vote has no abstain case, so every successful
`generate_signals` run casts at least one vote, the confidence is never
`"0/3"`, and ДЕРЖАТЬ (HOLD) occurs exactly on a one-to-one tie of the vote
counts. -/
theorem generate_signals_always_votes (st : AnalyzerState) (r : Signals)
    (h : (generateSignals st).1 = Except.ok r) :
    1 ≤ buyVotes r + sellVotes r ∧
    r.confidence ≠ "0/3" ∧
    ((r.recommendation = "ДЕРЖАТЬ") ↔ (buyVotes r = 1 ∧ sellVotes r = 1)) := by
  obtain ⟨t, m, v, h1, h2, h3, rfl⟩ := generateSignals_ok_parts h
  obtain ⟨-, -, -, -, -, -, g, i, j⟩ :=
    mkSignals_cases t m v (trendOf_ok_shortTerm h1) (momentumOf_ok_rsi h2)
      (momentumOf_ok_macd h2)
  exact ⟨i, g, j⟩

theorem generate_signals_always_votes_witness :
    1 ≤ buyVotes rW9 + sellVotes rW9 ∧
    rW9.confidence ≠ "0/3" ∧
    ((rW9.recommendation = "ДЕРЖАТЬ") ↔ (buyVotes rW9 = 1 ∧ sellVotes rW9 = 1)) :=
  generate_signals_always_votes (initState sW9) rW9 (by decide)

/-! ## Value/state characterizations of the stateful runs -/

lemma generateSignals_eq (st : AnalyzerState) :
    generateSignals st =
      (match trendOf st.data (indicatorsOf st) with
       | .error e => (Except.error e, withIndicators st)
       | .ok t =>
         match momentumOf st.data (indicatorsOf st) with
         | .error e => (Except.error e, withIndicators st)
         | .ok m =>
           match volatilityOf st.data (indicatorsOf st) with
           | .error e => (Except.error e, withIndicators st)
           | .ok v => (Except.ok (mkSignals t m v),
               { withIndicators st with signals := some (mkSignals t m v) })) := rfl

lemma generateSignals_fst (st : AnalyzerState) :
    (generateSignals st).1 = signalsValOf st.data (indicatorsOf st) := by
  rw [generateSignals_eq st]
  unfold signalsValOf
  rcases h1 : trendOf st.data (indicatorsOf st) with e | t
  · rfl
  rcases h2 : momentumOf st.data (indicatorsOf st) with e | m
  · rfl
  rcases h3 : volatilityOf st.data (indicatorsOf st) with e | v
  · rfl
  rfl

lemma generateSignals_snd_data (st : AnalyzerState) :
    (generateSignals st).2.data = st.data := by
  rw [generateSignals_eq st]
  rcases h1 : trendOf st.data (indicatorsOf st) with e | t
  · rfl
  rcases h2 : momentumOf st.data (indicatorsOf st) with e | m
  · rfl
  rcases h3 : volatilityOf st.data (indicatorsOf st) with e | v
  · rfl
  rfl

lemma generateSignals_snd_indicators (st : AnalyzerState) :
    (generateSignals st).2.indicators = some (indicatorsOf st) := by
  rw [generateSignals_eq st]
  rcases h1 : trendOf st.data (indicatorsOf st) with e | t
  · rfl
  rcases h2 : momentumOf st.data (indicatorsOf st) with e | m
  · rfl
  rcases h3 : volatilityOf st.data (indicatorsOf st) with e | v
  · rfl
  rfl

lemma getSummary_eq (st : AnalyzerState) :
    getSummary st =
      (match trendOf st.data (computeIndicators st.data) with
       | .error e => (Except.error e, addIndicators st)
       | .ok t =>
         match momentumOf st.data (computeIndicators st.data) with
         | .error e => (Except.error e, addIndicators st)
         | .ok m =>
           match volatilityOf st.data (computeIndicators st.data) with
           | .error e => (Except.error e, addIndicators st)
           | .ok v =>
             match generateSignals (addIndicators st) with
             | (sg, st5) =>
               match sg with
               | .error e => (Except.error e, st5)
               | .ok g =>
                 match latestRow st5.data (indicatorsOf st5) with
                 | none => (Except.error AErr.indexError, st5)
                 | some row => (Except.ok ⟨t, m, v, g, row⟩, st5)) := rfl

lemma indicatorsOf_addIndicators (st : AnalyzerState) :
    indicatorsOf (addIndicators st) = computeIndicators st.data := rfl

lemma addIndicators_data (st : AnalyzerState) : (addIndicators st).data = st.data := rfl

lemma getSummary_fst (st : AnalyzerState) : (getSummary st).1 = summaryOf st.data := by
  rw [getSummary_eq st]
  unfold summaryOf
  rcases h1 : trendOf st.data (computeIndicators st.data) with e | t
  · rfl
  rcases h2 : momentumOf st.data (computeIndicators st.data) with e | m
  · rfl
  rcases h3 : volatilityOf st.data (computeIndicators st.data) with e | v
  · rfl
  rcases hp : generateSignals (addIndicators st) with ⟨sg, st5⟩
  have hsg : sg = signalsValOf st.data (computeIndicators st.data) := by
    have h4 := generateSignals_fst (addIndicators st)
    rw [hp] at h4
    rw [indicatorsOf_addIndicators, addIndicators_data] at h4
    exact h4
  have hst5 : st5.data = st.data := by
    have h5 := generateSignals_snd_data (addIndicators st)
    rw [hp] at h5
    rw [addIndicators_data] at h5
    exact h5
  have hind5 : indicatorsOf st5 = computeIndicators st.data := by
    have h6 := generateSignals_snd_indicators (addIndicators st)
    rw [hp] at h6
    rw [indicatorsOf_addIndicators] at h6
    unfold indicatorsOf
    rw [h6]
    rfl
  subst hsg
  rcases hs : signalsValOf st.data (computeIndicators st.data) with e | g
  · rfl
  dsimp only
  rw [hst5, hind5]
  rcases latestRow st.data (computeIndicators st.data) with _ | row
  · rfl
  · rfl

lemma getSummary_snd_data (st : AnalyzerState) : (getSummary st).2.data = st.data := by
  rw [getSummary_eq st]
  rcases h1 : trendOf st.data (computeIndicators st.data) with e | t
  · rfl
  rcases h2 : momentumOf st.data (computeIndicators st.data) with e | m
  · rfl
  rcases h3 : volatilityOf st.data (computeIndicators st.data) with e | v
  · rfl
  rcases hp : generateSignals (addIndicators st) with ⟨sg, st5⟩
  have hst5 : st5.data = st.data := by
    have h5 := generateSignals_snd_data (addIndicators st)
    rw [hp] at h5
    rw [addIndicators_data] at h5
    exact h5
  dsimp only
  rcases sg with e | g
  · exact hst5
  rcases latestRow st5.data (indicatorsOf st5) with _ | row
  · exact hst5
  · exact hst5

/-! ## C6 -/

/-- C6: the full analysis is deterministic and idempotent — running
`get_summary` a second time, on the analyzer state left behind by the first
run (whose frame now carries the indicator columns), returns exactly the
same summary value as the first run; in particular two analyzers built on
identical copies of a series agree. -/
theorem get_summary_idempotent (s : List Bar) :
    (getSummary ((getSummary (initState s)).2)).1 = (getSummary (initState s)).1 := by
  rw [getSummary_fst, getSummary_fst, getSummary_snd_data]

/-! ## C7 -/

lemma stepOp_callerSeries (w : World) (op : EngineOp) :
    (stepOp w op).callerSeries = w.callerSeries := by
  cases op <;> first
    | rfl
    | (rcases h : w.analyzer with _ | st <;> simp [stepOp, h])

/-- C7: frame property — no engine operation (constructing the analyzer,
adding indicators, any analysis, `generate_signals` or `get_summary`)
touches the caller's series: after any sequence of operations the caller
still sees exactly the series they passed in.  (`__init__` stores
`data.copy()`, and every method only reads/writes the analyzer's own
state.) -/
theorem engine_preserves_caller_series (w : World) (ops : List EngineOp) :
    (runOps w ops).callerSeries = w.callerSeries := by
  induction ops generalizing w with
  | nil => rfl
  | cons op rest ih =>
      have hstep : runOps w (op :: rest) = runOps (stepOp w op) rest := rfl
      rw [hstep, ih, stepOp_callerSeries]

/-! ## C10 -/

lemma trendOf_short {d : List Bar} (ind : Indicators) (h : d.length < 2) :
    trendOf d ind = Except.error AErr.indexError := by
  rcases d with _ | ⟨b, _ | ⟨c, rest⟩⟩
  · rfl
  · rfl
  · simp at h
    omega

/-- C10: `analyze_trend` reads `iloc[-2]` (and `iloc[-1]`), so on a frame of
fewer than 2 bars it — and hence `generate_signals` and `get_summary`, which
run it first — raises the out-of-bounds `IndexError` instead of returning a
result (and not the spec's `InsufficientDataError`, which equals no
`AErr.indexError`). -/
theorem analyses_short_series_index_error (st : AnalyzerState) (h : st.data.length < 2) :
    (analyzeTrend st).1 = Except.error AErr.indexError ∧
    (generateSignals st).1 = Except.error AErr.indexError ∧
    (getSummary st).1 = Except.error AErr.indexError := by
  have ht1 : trendOf st.data (indicatorsOf st) = Except.error AErr.indexError :=
    trendOf_short _ h
  have ht2 : trendOf st.data (computeIndicators st.data) = Except.error AErr.indexError :=
    trendOf_short _ h
  refine ⟨ht1, ?_, ?_⟩
  · rw [generateSignals_fst]
    unfold signalsValOf
    rw [ht1]
  · rw [getSummary_fst]
    unfold summaryOf
    rw [ht2]

theorem analyses_short_series_index_error_witness :
    (analyzeTrend (initState sW10)).1 = Except.error AErr.indexError ∧
    (generateSignals (initState sW10)).1 = Except.error AErr.indexError ∧
    (getSummary (initState sW10)).1 = Except.error AErr.indexError :=
  analyses_short_series_index_error (initState sW10) (by decide)

/-! ## C3 -/

lemma trendOf_error {d : List Bar} {ind : Indicators} {e : AErr}
    (h : trendOf d ind = Except.error e) : e = AErr.indexError := by
  unfold trendOf at h
  rcases hl : latestRow d ind with _ | row <;> rw [hl] at h
  · injection h with h
    exact h.symm
  · dsimp only at h
    split at h
    · injection h with h
      exact h.symm
    · exact Except.noConfusion h

lemma momentumOf_error {d : List Bar} {ind : Indicators} {e : AErr}
    (h : momentumOf d ind = Except.error e) : e = AErr.indexError := by
  unfold momentumOf at h
  rcases hl : latestRow d ind with _ | row <;> rw [hl] at h
  · injection h with h
    exact h.symm
  · exact Except.noConfusion h

lemma volatilityOf_error {d : List Bar} {ind : Indicators} {e : AErr}
    (h : volatilityOf d ind = Except.error e) : e = AErr.indexError := by
  unfold volatilityOf at h
  rcases hl : latestRow d ind with _ | row <;> rw [hl] at h
  · injection h with h
    exact h.symm
  · exact Except.noConfusion h

lemma signalsValOf_error {d : List Bar} {ind : Indicators} {e : AErr}
    (h : signalsValOf d ind = Except.error e) : e = AErr.indexError := by
  unfold signalsValOf at h
  rcases h1 : trendOf d ind with e1 | t <;> rw [h1] at h
  · injection h with h
    subst h
    exact trendOf_error h1
  rcases h2 : momentumOf d ind with e2 | m <;> rw [h2] at h
  · injection h with h
    subst h
    exact momentumOf_error h2
  rcases h3 : volatilityOf d ind with e3 | v <;> rw [h3] at h
  · injection h with h
    subst h
    exact volatilityOf_error h3
  · exact Except.noConfusion h

lemma summaryOf_error {d : List Bar} {e : AErr}
    (h : summaryOf d = Except.error e) : e = AErr.indexError := by
  unfold summaryOf at h
  rcases h1 : trendOf d (computeIndicators d) with e1 | t <;> rw [h1] at h
  · injection h with h
    subst h
    exact trendOf_error h1
  rcases h2 : momentumOf d (computeIndicators d) with e2 | m <;> rw [h2] at h
  · injection h with h
    subst h
    exact momentumOf_error h2
  rcases h3 : volatilityOf d (computeIndicators d) with e3 | v <;> rw [h3] at h
  · injection h with h
    subst h
    exact volatilityOf_error h3
  rcases h4 : signalsValOf d (computeIndicators d) with e4 | g <;> rw [h4] at h
  · injection h with h
    subst h
    exact signalsValOf_error h4
  dsimp only at h
  rcases hrow : latestRow d (computeIndicators d) with _ | row <;> rw [hrow] at h
  · injection h with h
    exact h.symm
  · exact Except.noConfusion h

/-- C3 counterexample: on the empty series the analysis fails with the
out-of-bounds `IndexError` (`AErr.indexError`), which is not the spec's
`InsufficientDataError` — no such error exists anywhere in the code. -/
theorem empty_series_error_not_insufficient :
    (getSummary (initState ([] : List Bar))).1 = Except.error AErr.indexError ∧
    AErr.indexError ≠ AErr.insufficientData :=
  ⟨by decide, by decide⟩

/-- C3 (amended): on the empty series the analysis fails with the
out-of-bounds indexing error (`iloc[-1]` on an empty frame), and that index
error is the only failure mode of the whole computation. -/
theorem empty_series_index_error :
    (getSummary (initState ([] : List Bar))).1 = Except.error AErr.indexError ∧
    ∀ (st : AnalyzerState) (e : AErr),
      (getSummary st).1 = Except.error e → e = AErr.indexError := by
  refine ⟨by decide, ?_⟩
  intro st e h
  rw [getSummary_fst] at h
  exact summaryOf_error h

theorem empty_series_index_error_witness : AErr.indexError = AErr.indexError :=
  empty_series_index_error.2 (initState []) AErr.indexError (by decide)

/-! ## C2 -/

/-- C2 counterexample: on the 10-bar series `sT10` (the spec's own scenario)
`SMA_200` is undefined (NaN) at the latest bar, yet `analyze_trend` reports
the long-term trend as `"Нейтральный"` — the same neutral label as a genuine
`SMA_50 = SMA_200` tie — not as any `"Undetermined"` label (no such label
exists in the code). -/
theorem trend_len10_not_undetermined :
    (analyzeTrend (initState sT10)).1.map TrendInfo.sma200 = Except.ok none ∧
    (analyzeTrend (initState sT10)).1.map TrendInfo.longTermTrend = Except.ok "Нейтральный" ∧
    "Нейтральный" ≠ "Undetermined" :=
  ⟨by decide, by decide, by decide⟩

lemma cellGt_none_right (a : Cell) : cellGt a none = false := by
  cases a <;> rfl

lemma cellLt_none_right (a : Cell) : cellLt a none = false := by
  cases a <;> rfl

/-- C2 (amended): when `SMA_200` is undefined at the latest bar the
comparisons against it are false, so `analyze_trend` reports the long-term
trend with the neutral/else label `"Нейтральный"` (not a dedicated
`Undetermined`); and on any frame of at least 2 bars `analyze_trend`
succeeds — no exception is raised. -/
theorem trend_undefined_sma200_neutral :
    (∀ (st : AnalyzerState), 2 ≤ st.data.length →
      ∃ t, (analyzeTrend st).1 = Except.ok t) ∧
    (∀ (st : AnalyzerState) (t : TrendInfo), (analyzeTrend st).1 = Except.ok t →
      t.sma200 = none → t.longTermTrend = "Нейтральный") := by
  constructor
  · intro st hlen
    have hne : st.data ≠ [] := by
      intro hnil
      rw [hnil] at hlen
      simp at hlen
    have hsome : (st.data.getLast?).isSome := by
      rw [List.getLast?_isSome]
      exact hne
    obtain ⟨b, hb⟩ := Option.isSome_iff_exists.mp hsome
    show ∃ t, trendOf st.data (indicatorsOf st) = Except.ok t
    unfold trendOf latestRow
    rw [hb]
    dsimp only
    rw [if_neg (by omega)]
    exact ⟨_, rfl⟩
  · intro st t h h200
    replace h : trendOf st.data (indicatorsOf st) = Except.ok t := h
    unfold trendOf at h
    rcases hl : latestRow st.data (indicatorsOf st) with _ | row <;> rw [hl] at h
    · exact Except.noConfusion h
    · dsimp only at h
      split at h
      · exact Except.noConfusion h
      · injection h with h
        subst h
        dsimp only at h200 ⊢
        rw [h200, cellGt_none_right, cellLt_none_right]
        rfl

theorem trend_undefined_sma200_neutral_witness :
    (∃ t, (analyzeTrend (initState sT10)).1 = Except.ok t) ∧
    tT10.longTermTrend = "Нейтральный" :=
  ⟨trend_undefined_sma200_neutral.1 (initState sT10) (by decide),
   trend_undefined_sma200_neutral.2 (initState sT10) tT10 (by decide) (by decide)⟩

/-! ## C4 -/

lemma cellGt_self (a : Cell) : cellGt a a = false := by
  cases a with
  | none => rfl
  | some q => simp [cellGt]

/-- C4: `analyze_momentum` labels MACD `"Бычий"` (Bullish) exactly when the
latest `MACD` cell is strictly greater than the latest `MACD_Signal` cell
(NaN comparing false) and `"Медвежий"` (Bearish) in every other case —
equality included; and the MACD block of `generate_signals` always casts its
vote: a Бычий label adds one buy vote and any other label adds one sell
vote on top of the trend/RSI tally. -/
theorem macd_strict_rule :
    (∀ (d : List Bar) (ind : Indicators) (m : MomentumInfo),
      momentumOf d ind = Except.ok m →
        ((m.macdLabel = "Бычий" ↔ cellGt (lastCell ind.macd) (lastCell ind.macdSig) = true) ∧
         (m.macdLabel = "Медвежий" ↔ ¬ cellGt (lastCell ind.macd) (lastCell ind.macdSig) = true) ∧
         (lastCell ind.macd = lastCell ind.macdSig → m.macdLabel = "Медвежий"))) ∧
    (∀ tl rl ml : String,
      (ml = "Бычий" →
        voteCounts tl rl ml = ((trendRsiVotes tl rl).1 + 1, (trendRsiVotes tl rl).2)) ∧
      (ml ≠ "Бычий" →
        voteCounts tl rl ml = ((trendRsiVotes tl rl).1, (trendRsiVotes tl rl).2 + 1))) := by
  constructor
  · intro d ind m h
    unfold momentumOf at h
    rcases hrow : latestRow d ind with _ | row <;> rw [hrow] at h
    · exact Except.noConfusion h
    have hmacd : row.macd = lastCell ind.macd := by
      unfold latestRow at hrow
      rcases hg : d.getLast? with _ | b <;> rw [hg] at hrow
      · exact Option.noConfusion hrow
      · injection hrow with hrow
        rw [← hrow]
    have hsig : row.macdSig = lastCell ind.macdSig := by
      unfold latestRow at hrow
      rcases hg : d.getLast? with _ | b <;> rw [hg] at hrow
      · exact Option.noConfusion hrow
      · injection hrow with hrow
        rw [← hrow]
    injection h with h
    subst h
    dsimp only
    rw [hmacd, hsig]
    rcases hgt : cellGt (lastCell ind.macd) (lastCell ind.macdSig) with _ | _
    · refine ⟨by simp, by simp, fun _ => by simp⟩
    · refine ⟨by simp, by simp, fun heq => ?_⟩
      rw [heq, cellGt_self] at hgt
      exact Bool.noConfusion hgt
  · intro tl rl ml
    constructor
    · intro hml
      simp [voteCounts, hml]
    · intro hml
      simp [voteCounts, hml]

theorem macd_strict_rule_witness :
    (mW4.macdLabel = "Бычий" ↔ cellGt (lastCell indW4.macd) (lastCell indW4.macdSig) = true) ∧
    voteCounts "Боковой" "Нейтрально" "Бычий" =
      ((trendRsiVotes "Боковой" "Нейтрально").1 + 1,
        (trendRsiVotes "Боковой" "Нейтрально").2) ∧
    voteCounts "Боковой" "Нейтрально" "Медвежий" =
      ((trendRsiVotes "Боковой" "Нейтрально").1,
        (trendRsiVotes "Боковой" "Нейтрально").2 + 1) :=
  ⟨(macd_strict_rule.1 sW4 indW4 mW4 (by decide)).1,
   (macd_strict_rule.2 "Боковой" "Нейтрально" "Бычий").1 rfl,
   (macd_strict_rule.2 "Боковой" "Нейтрально" "Медвежий").2 (by decide)⟩

/-! ## C8 -/

lemma dropNone_pctGo (p : ℚ) (hp : p ≠ 0) (rest : List ℚ) (hpos : ∀ c ∈ rest, c ≠ 0) :
    dropNone (pctGo p rest) = retGo p rest := by
  induction rest generalizing p with
  | nil => rfl
  | cons x xs ih =>
      have hx : x / p - 1 = (x - p) / p := by
        field_simp
      simp only [pctGo, retGo, dropNone, List.filterMap_cons]
      dsimp only [id]
      rw [hx]
      congr 1
      exact ih x (hpos x (List.mem_cons_self x xs)) fun c hc => hpos c (List.mem_cons_of_mem x hc)

lemma dropNone_pctChange (xs : List ℚ) (hpos : ∀ c ∈ xs, 0 < c) :
    dropNone (pctChange xs) = specDailyReturns xs := by
  cases xs with
  | nil => rfl
  | cons x rest =>
      simp only [pctChange, specDailyReturns, dropNone, List.filterMap_cons]
      dsimp only [id]
      exact dropNone_pctGo x (ne_of_gt (hpos x (List.mem_cons_self x rest))) rest
        fun c hc => ne_of_gt (hpos c (List.mem_cons_of_mem x hc))

lemma sum_sq_sub (xs : List ℚ) (c : ℚ) :
    (xs.map fun x => (x - c) ^ 2).sum =
      (xs.map fun x => x ^ 2).sum - 2 * c * xs.sum + (xs.length : ℚ) * c ^ 2 := by
  induction xs with
  | nil => simp
  | cons x l ih =>
      simp only [List.map_cons, List.sum_cons, List.length_cons, ih]
      push_cast
      ring

/-- pandas' `ddof = 1` formula `Σ(x − x̄)²/(n−1)` equals the closed-form
sample variance `(n·Σx² − (Σx)²)/(n·(n−1))`. -/
lemma sampleVar_eq_spec (xs : List ℚ) : sampleVarQ xs = specSampleVar xs := by
  unfold sampleVarQ specSampleVar
  by_cases h : 2 ≤ xs.length
  · rw [if_pos h, if_pos h]
    have hn2 : (2 : ℚ) ≤ (xs.length : ℚ) := by exact_mod_cast h
    have hn : (xs.length : ℚ) ≠ 0 := by linarith
    have hn1 : (xs.length : ℚ) - 1 ≠ 0 := by
      intro h0
      have : (xs.length : ℚ) = 1 := by linarith
      linarith
    congr 1
    rw [sum_sq_sub]
    field_simp
    ring
  · rw [if_neg h, if_neg h]

/-- C8: for every series of length ≥ 2 whose closes are positive (the Bar
invariant), the historical volatility the code reports
(`Close.pct_change().dropna().std() · √252 · 100`, i.e. the `√`-lift of the
`hvolVar` carried by `analyze_volatility`) equals the spec's formula: the
sample standard deviation of the day-over-day fractional returns times
`√252`, as a percentage. -/
theorem historical_volatility_spec (data : List Bar) (_hlen : 2 ≤ data.length)
    (hpos : ∀ b ∈ data, 0 < b.close) :
    historicalVolatility data = specHistoricalVolatility data ∧
    ∀ (ind : Indicators) (v : VolatilityInfo), volatilityOf data ind = Except.ok v →
      v.hvolVar = sampleVarQ (dropNone (pctChange (closes data))) := by
  constructor
  · unfold historicalVolatility specHistoricalVolatility
    have hpos' : ∀ c ∈ closes data, 0 < c := by
      intro c hc
      obtain ⟨b, hb, rfl⟩ := List.mem_map.mp hc
      exact hpos b hb
    rw [dropNone_pctChange (closes data) hpos', sampleVar_eq_spec]
  · intro ind v h
    unfold volatilityOf at h
    rcases hrow : latestRow data ind with _ | row <;> rw [hrow] at h
    · exact Except.noConfusion h
    · injection h with h
      subst h
      rfl

theorem historical_volatility_spec_witness :
    historicalVolatility sW8 = specHistoricalVolatility sW8 :=
  (historical_volatility_spec sW8 (by decide) (by decide)).1
